import Mathlib

/-!
Verification development for the language-drift translation pipeline.

The development embeds, as executable Lean definitions, the parts of the
repository exercised by the claims under study:

* ld_research/model/agent.py   (the Agent seq-to-seq wrapper)
* ld_research/text/iwslt.py    (IWSLTDataset, IWSLTExample, IWSLTDataloader)
* ld_research/text/preprocess.py (the corpus preparation pipeline)

Components of the repository that are referenced but whose source is not
available (the settings constants, the Vocab class, the sequence-mask and
padding utilities, and the GRU encoder and decoder) are modelled from the
specification; every such definition carries a doc comment starting with
the words Modelled from the spec.  External subprocess invocations and
filesystem state are made explicit: a function that in Python mutates the
filesystem or spawns a subprocess is embedded as a function from an explicit
filesystem value to an Effects record listing the resulting filesystem, the
commands invoked, and the log lines emitted, in order of occurrence.
-/

set_option autoImplicit false

/-! ## Settings constants -/

/-- Modelled from the spec: the settings module is absent from the reviewed
source.  Language codes are short ISO codes prefixed by a marker character,
consumed by slicing off the first character. -/
def FR : String := ".fr"

/-- Modelled from the spec: the English language code, marker-prefixed. -/
def EN : String := ".en"

/-- Modelled from the spec: the German language code, marker-prefixed. -/
def DE : String := ".de"

/-- Modelled from the spec: textual sentinel marking sequence start. -/
def BOS_WORD : String := "<bos>"

/-- Modelled from the spec: textual sentinel marking sequence end, also used
as the padding filler token. -/
def EOS_WORD : String := "<eos>"

/-- Modelled from the spec: root directory for raw downloaded corpora.  The
concrete value is immaterial to every claim; an opaque path is used. -/
def ROOT_CORPUS_DIR : String := "root/corpus"

/-- Modelled from the spec: root directory for tokenized output. -/
def ROOT_TOK_DIR : String := "root/tok"

/-- Modelled from the spec: root directory for BPE output. -/
def ROOT_BPE_DIR : String := "root/bpe"

/-- Modelled from the spec: path of the external python interpreter binary. -/
def PYTHONBIN : String := "python"

/-- Modelled from the spec: path of the external joint-BPE learning script. -/
def LEARN_JOINT_BPE : String := "learn_joint_bpe_and_vocab.py"

/-- Modelled from the spec: path of the external BPE application script. -/
def APPLY_BPE : String := "apply_bpe.py"

/-- Modelled from the spec: the minimum subword frequency threshold.  The
concrete value is immaterial to every claim. -/
def MIN_FREQ : Nat := 2

/-- os.path.join for two components. -/
def pathJoin (a b : String) : String := a ++ "/" ++ b

/-- Splitting a character list at every occurrence of a separator, keeping
empty fields. -/
def splitChar (c0 : Char) : List Char → List (List Char)
  | [] => [[]]
  | c :: rest =>
    let r := splitChar c0 rest
    if c = c0 then [] :: r
    else
      match r with
      | [] => [[c]]
      | h :: t => (c :: h) :: t

/-- os.path.basename: the part of the path after the last slash. -/
def basename (p : String) : String :=
  String.mk ((splitChar '/' p.data).getLastD [])

/-! ## Python string primitives -/

/-- The characters the python str.split() method with no arguments splits on. -/
def isPySpace (c : Char) : Bool :=
  (c = ' ') || (c = '\t') || (c = '\n') || (c = '\r') || (c = '\x0b') || (c = '\x0c')

/-- The maximal non-whitespace runs of a character list: the current run at
the front, the later complete runs behind. -/
def pySplitCore : List Char → List Char × List (List Char)
  | [] => ([], [])
  | c :: rest =>
    let r := pySplitCore rest
    if isPySpace c then ([], if r.1.isEmpty then r.2 else r.1 :: r.2)
    else (c :: r.1, r.2)

/-- python str.split() with no arguments: split on whitespace runs, dropping
empty fields. -/
def pySplit (s : String) : List String :=
  ((if (pySplitCore s.data).1.isEmpty then (pySplitCore s.data).2
    else (pySplitCore s.data).1 :: (pySplitCore s.data).2).map
    (fun cs => String.mk cs))

/-- python s.rstrip with a newline argument: drop every trailing newline
character. -/
def pyRstripNl (s : String) : String :=
  String.mk ((s.data.reverse.dropWhile (fun c => c = '\n')).reverse)

/-- python s[1:] on a string: drop the first character. -/
def pyTail (s : String) : String := s.drop 1

/-- python s[-3:] on a string: the last three characters. -/
def pyLast3 (s : String) : String := s.drop (s.length - 3)

/-! ## Filesystem and effect model -/

/-- A filesystem entry: a directory or a file holding the list of lines that
the python readlines call would return for it. -/
inductive FSEntry : Type where
  | dir : FSEntry
  | file (lines : List String) : FSEntry
deriving DecidableEq

/-- A filesystem: an association list from paths to entries; the first
binding for a path shadows later ones. -/
abbrev FS : Type := List (String × FSEntry)

/-- Look a path up in the filesystem. -/
def FS.lookupPath (fs : FS) (p : String) : Option FSEntry := List.lookup p fs

/-- os.path.exists. -/
def FS.existsPath (fs : FS) (p : String) : Bool := (fs.lookupPath p).isSome

/-- readlines on a path: the stored lines, when the path is a file. -/
def FS.readLines (fs : FS) (p : String) : Option (List String) :=
  match fs.lookupPath p with
  | some (.file ls) => some ls
  | _ => none

/-- os.makedirs. -/
def FS.mkdir (fs : FS) (p : String) : FS := (p, .dir) :: fs

/-- Opening a path for writing and writing the given lines. -/
def FS.writeFile (fs : FS) (p : String) (lines : List String) : FS :=
  (p, .file lines) :: fs

/-- The kinds of python exception the embedded code can raise. -/
inductive PyError : Type where
  | assertionError (msg : String) : PyError
  | ioError (msg : String) : PyError
  | configError (msg : String) : PyError
  | attributeError (msg : String) : PyError
  | indexError (msg : String) : PyError
  | keyError (msg : String) : PyError
deriving DecidableEq

/-- Whether an error is an assertion failure. -/
def PyError.isAssertionErr : PyError → Bool
  | .assertionError _ => true
  | _ => false

/-- Whether a computation ended in an assertion failure. -/
def isAssertion {α : Type} : Except PyError α → Bool
  | .error e => e.isAssertionErr
  | .ok _ => false

/-- Whether a computation succeeded. -/
def exceptOk {α : Type} : Except PyError α → Bool
  | .ok _ => true
  | .error _ => false

/-- The observable effects of running a preprocessing operation: the
resulting filesystem, the external commands invoked (as argv lists, in
order), and the log lines emitted (in order). -/
structure Effects : Type where
  fs : FS
  calls : List (List String)
  logs : List String
deriving DecidableEq

/-! ## Sequence mask and the Agent forward computation -/

/-- Modelled from the spec: the sequence-mask utility from
ld_research/model/utils.py, absent from the reviewed source.  Row i holds,
at position j, whether j is below the i-th length. -/
def sequence_mask (lengths : List Int) (max_len : Nat) : List (List Bool) :=
  lengths.map (fun l => (List.range max_len).map (fun j => decide ((j : Int) < l)))

/-- The float cast of a boolean mask, as rationals 0 and 1. -/
def maskFloat (m : List (List Bool)) : List (List ℚ) :=
  m.map (fun row => row.map (fun b => if b then (1 : ℚ) else 0))

/-- torch tensor.size(1) of a three-dimensional tensor given as nested
lists. -/
def size1 {α : Type} (t : List (List (List α))) : Nat := (t.headD []).length

/-- The external neural primitives the Agent composes: the GRU encoder, the
GRU decoder in teacher-forcing mode, and the log-softmax kernel.  Modelled
from the spec: the grus module is absent from the reviewed source, and
log-softmax is a numeric-library kernel, so all three are abstract
parameters.  The value type of logits is a type parameter. -/
structure AgentFns (α μ σ : Type) : Type where
  encode : List (List Int) → σ × μ
  teacherForcing :
    List (List Int) → μ → σ → Option (List Int) → List (List (List α)) × List (List (List α))
  logSoftmaxLast : List (List (List α)) → List (List (List α))

/-- Embedding of Agent.forward from ld_research/model/agent.py.  The device
move is the identity on values.  When tgt_lengths is absent the source sets
masks to the python none value and then unconditionally calls a float
method on it, which raises an attribute error; the embedding returns that
error. -/
def Agent.forward {α μ σ : Type} (fns : AgentFns α μ σ) (src tgt : List (List Int))
    (src_lengths : Option (List Int)) (tgt_lengths : Option (List Int))
    (with_align : Bool) :
    Except PyError
      (List (List (List α)) × List (List Int) × List (List ℚ) ×
        Option (List (List (List α)))) :=
  let stmem := fns.encode src
  let tgt_in := tgt.map List.dropLast
  let la := fns.teacherForcing tgt_in stmem.2 stmem.1 src_lengths
  let tgt_out := tgt.map (List.drop 1)
  match tgt_lengths with
  | none => .error (.attributeError "NoneType object has no attribute float")
  | some lens =>
      let masks := maskFloat (sequence_mask (lens.map (fun l => l - 1)) (size1 la.1))
      let logprobs := fns.logSoftmaxLast la.1
      .ok (logprobs, tgt_out, masks, if with_align then some la.2 else none)

/-- Trivial instantiation of the neural primitives, used to evaluate the
Agent embedding at concrete inputs. -/
def trivialFns : AgentFns Unit Unit Unit where
  encode := fun _ => ((), ())
  teacherForcing := fun _ _ _ _ => ([], [])
  logSoftmaxLast := fun t => t

/-! ## Dynamically typed values and IWSLTExample -/

/-- A python value held in an IWSLTExample field: a token list and a plain
integer before batching, an integer tensor carrying a dtype and a device tag
after collation. -/
inductive PyValue : Type where
  | strList (ts : List String) : PyValue
  | intVal (n : Int) : PyValue
  | tensor1 (data : List Int) (dtype device : String) : PyValue
  | tensor2 (data : List (List Int)) (dtype device : String) : PyValue
deriving DecidableEq

/-- The python method call value.to with a device keyword: defined on
tensors, where it retags the device, and an attribute error on every other
value. -/
def PyValue.toDevice : PyValue → String → Except PyError PyValue
  | .tensor1 d dt _, dev => .ok (.tensor1 d dt dev)
  | .tensor2 d dt _, dev => .ok (.tensor2 d dt dev)
  | _, _ => .error (.attributeError "object has no attribute to")

/-- The token list held by a value, for the duck-typed list accesses in
collate_fn. -/
def PyValue.tokens : PyValue → List String
  | .strList ts => ts
  | _ => []

/-- Embedding of the IWSLTExample class from ld_research/text/iwslt.py. -/
structure IWSLTExample : Type where
  src : PyValue
  tgt : PyValue
  src_lengths : PyValue
  tgt_lengths : PyValue
deriving DecidableEq

/-- Embedding of IWSLTExample.to: assigns each of the four fields in source
order the result of calling the to method on it.  The python method returns
no value and mutates in place, so the embedding returns the final state of
the example together with the error, if any, at which execution stopped;
fields before the failing one keep their updated values. -/
def IWSLTExample.toDev (e : IWSLTExample) (dev : String) :
    IWSLTExample × Option PyError :=
  match e.src.toDevice dev with
  | .error er => (e, some er)
  | .ok s1 =>
    let e1 : IWSLTExample := { e with src := s1 }
    match e1.tgt.toDevice dev with
    | .error er => (e1, some er)
    | .ok t1 =>
      let e2 : IWSLTExample := { e1 with tgt := t1 }
      match e2.src_lengths.toDevice dev with
      | .error er => (e2, some er)
      | .ok sl1 =>
        let e3 : IWSLTExample := { e2 with src_lengths := sl1 }
        match e3.tgt_lengths.toDevice dev with
        | .error er => (e3, some er)
        | .ok tl1 => ({ e3 with tgt_lengths := tl1 }, none)

/-! ## Vocab and the padding utility -/

/-- Modelled from the spec: the Vocab class from ld_research/text is absent
from the reviewed source.  It carries the language code, an ordered token
table, and the reserved unknown index. -/
structure Vocab : Type where
  lang : String
  itos : List String
  unkIdx : Nat
deriving DecidableEq

/-- The path of the per-language vocabulary file written during BPE
learning and read back by the Vocab loader. -/
def vocabPath (lang : String) : String :=
  pathJoin ROOT_BPE_DIR ("vocab" ++ lang)

/-- Modelled from the spec: Vocab construction locates and parses the
persisted vocabulary file for the language, failing with a configuration
error when the file is absent.  The exact reserved-index layout is not
specified and is immaterial to every claim; the token table is the first
field of each vocabulary line. -/
def Vocab.ofFS (fs : FS) (lang : String) : Except PyError Vocab :=
  match fs.readLines (vocabPath lang) with
  | some lines => .ok ⟨lang, lines.map (fun l => (pySplit l).headD ""), 0⟩
  | none => .error (.configError ("missing vocabulary file for " ++ lang))

/-- The index of a token: its position in the table, or the reserved
unknown index when absent. -/
def Vocab.lookupTok (v : Vocab) (tok : String) : Nat :=
  match v.itos.findIdx? (fun t => t = tok) with
  | some i => i
  | none => v.unkIdx

/-- Modelled from the spec: Vocab.numerize replaces every token of a
rectangular batch by its integer index, unknown tokens by the reserved
unknown index. -/
def Vocab.numerize (v : Vocab) (batch : List (List String)) : List (List Nat) :=
  batch.map (fun row => row.map v.lookupTok)

/-- Modelled from the spec: pad_to_same_length from ld_research/text/utils,
absent from the reviewed source.  Each sentence is wrapped with the optional
init and end tokens, every wrapped sentence is padded on the right with the
pad token to the maximum wrapped length, and the true wrapped lengths are
returned alongside. -/
def pad_to_same_length (sentences : List (List String)) (pad_token : String)
    (init_token : Option String) (end_token : Option String) :
    List (List String) × List Nat :=
  let wrapped := sentences.map (fun s => init_token.toList ++ s ++ end_token.toList)
  let maxLen := (wrapped.map List.length).foldl Nat.max 0
  (wrapped.map (fun s => s ++ List.replicate (maxLen - s.length) pad_token),
   wrapped.map List.length)

/-! ## IWSLTDataset -/

/-- The pair directory component src-tgt built from two marker-prefixed
language codes by dropping the marker of each. -/
def pairDirname (src_lang tgt_lang : String) : String :=
  pyTail src_lang ++ "-" ++ pyTail tgt_lang

/-- Embedding of the IWSLTDataset class state. -/
structure IWSLTDataset : Type where
  src_lang : String
  tgt_lang : String
  mode : String
  src_vocab : Vocab
  tgt_vocab : Vocab
  bpe_corpus_dir : String
  src_text : List String
  tgt_text : List String
deriving DecidableEq

/-- The modes the constructor accepts, in source order. -/
def validModes : List String := ["train", "test", "valid"]

/-- The class attribute mapping a mode to its file-name piece. -/
def IWSLTDataset.prefixOf : String → Option String
  | "train" => some "train"
  | "valid" => some "IWSLT16.TED.tst2013"
  | "test" => some "IWSLT16.TED.tst2014"
  | _ => none

/-- The BPE corpus directory of a language pair. -/
def IWSLTDataset.bpeCorpusDir (src_lang tgt_lang : String) : String :=
  pathJoin (pathJoin ROOT_BPE_DIR "iwslt") (pairDirname src_lang tgt_lang)

/-- The source-side text file path for a given file-name piece. -/
def IWSLTDataset.srcTxtPath (src_lang tgt_lang pre : String) : String :=
  pathJoin (IWSLTDataset.bpeCorpusDir src_lang tgt_lang)
    (pre ++ "." ++ pyTail src_lang ++ "-" ++ pyTail tgt_lang ++ src_lang)

/-- The target-side text file path for a given file-name piece. -/
def IWSLTDataset.tgtTxtPath (src_lang tgt_lang pre : String) : String :=
  pathJoin (IWSLTDataset.bpeCorpusDir src_lang tgt_lang)
    (pre ++ "." ++ pyTail src_lang ++ "-" ++ pyTail tgt_lang ++ tgt_lang)

/-- Embedding of IWSLTDataset.get_txt: resolve the two split files and read
both; a missing file is an io error, an unknown mode a key error on the
class attribute table. -/
def IWSLTDataset.get_txt (fs : FS) (src_lang tgt_lang mode : String) :
    Except PyError (List String × List String) :=
  match IWSLTDataset.prefixOf mode with
  | none => .error (.keyError mode)
  | some pre =>
    match fs.readLines (IWSLTDataset.srcTxtPath src_lang tgt_lang pre) with
    | none => .error (.ioError ("no such file " ++
        IWSLTDataset.srcTxtPath src_lang tgt_lang pre))
    | some srcLines =>
      match fs.readLines (IWSLTDataset.tgtTxtPath src_lang tgt_lang pre) with
      | none => .error (.ioError ("no such file " ++
          IWSLTDataset.tgtTxtPath src_lang tgt_lang pre))
      | some tgtLines => .ok (srcLines, tgtLines)

/-- Embedding of the IWSLTDataset constructor: assert the mode, build the
two vocabularies, read the two split files, assert equal line counts. -/
def IWSLTDataset.init (fs : FS) (src_lang tgt_lang mode : String) :
    Except PyError IWSLTDataset :=
  if mode ∈ validModes then
    match Vocab.ofFS fs src_lang with
    | .error e => .error e
    | .ok sv =>
      match Vocab.ofFS fs tgt_lang with
      | .error e => .error e
      | .ok tv =>
        match IWSLTDataset.get_txt fs src_lang tgt_lang mode with
        | .error e => .error e
        | .ok st =>
          if st.1.length = st.2.length then
            .ok ⟨src_lang, tgt_lang, mode, sv, tv,
                 IWSLTDataset.bpeCorpusDir src_lang tgt_lang, st.1, st.2⟩
          else .error (.assertionError "Not paired dataset, something is wrong")
  else .error (.assertionError ("Invalid mode " ++ mode))

/-- Embedding of the dataset length method. -/
def IWSLTDataset.len (d : IWSLTDataset) : Nat := d.src_text.length

/-- Embedding of the dataset getitem method: strip the trailing newline of
the indexed line on each side and split on whitespace; the lengths are the
placeholder integer zero.  Out-of-range indices raise an index error. -/
def IWSLTDataset.getitem (d : IWSLTDataset) (i : Nat) :
    Except PyError IWSLTExample :=
  if i < d.src_text.length then
    if i < d.tgt_text.length then
      .ok ⟨.strList (pySplit (pyRstripNl (d.src_text.getD i ""))),
           .strList (pySplit (pyRstripNl (d.tgt_text.getD i ""))),
           .intVal 0, .intVal 0⟩
    else .error (.indexError "list index out of range")
  else .error (.indexError "list index out of range")

/-- Embedding of IWSLTDataloader.collate_fn: pad the source side with the
end-of-sequence word as pad and end token and no init token, pad the target
side with the beginning-of-sequence word as init token and the
end-of-sequence word as end and pad token, numerize both padded batches
through the respective vocabulary into long tensors, and turn the two
length lists into int tensors.  Fresh tensors live on the default device. -/
def IWSLTDataloader.collate_fn (src_vocab tgt_vocab : Vocab)
    (batch : List IWSLTExample) : IWSLTExample :=
  let srcPad := pad_to_same_length (batch.map (fun e => e.src.tokens))
    EOS_WORD none (some EOS_WORD)
  let tgtPad := pad_to_same_length (batch.map (fun e => e.tgt.tokens))
    EOS_WORD (some BOS_WORD) (some EOS_WORD)
  let src := PyValue.tensor2 ((src_vocab.numerize srcPad.1).map
    (fun row => row.map Int.ofNat)) "long" "cpu"
  let tgt := PyValue.tensor2 ((tgt_vocab.numerize tgtPad.1).map
    (fun row => row.map Int.ofNat)) "long" "cpu"
  let src_lengths := PyValue.tensor1 (srcPad.2.map Int.ofNat) "int" "cpu"
  let tgt_lengths := PyValue.tensor1 (tgtPad.2.map Int.ofNat) "int" "cpu"
  ⟨src, tgt, src_lengths, tgt_lengths⟩

/-! ## Preprocessing pipeline -/

/-- itertools.product of two lists, first component major. -/
def listProd {α β : Type} (xs : List α) (ys : List β) : List (α × β) :=
  xs.foldr (fun x acc => ys.map (fun y => (x, y)) ++ acc) []

/-- The path of the learned joint BPE codes file. -/
def codesPath : String := pathJoin ROOT_BPE_DIR "bpe.codes"

/-- The raw corpus directory of one IWSLT language pair.  The corpus name
and the pair directory pattern come from the third-party dataset class; the
spec fixes them to the name iwslt and the src-tgt pattern. -/
def iwsltCorpusDir (src_lang tgt_lang : String) : String :=
  pathJoin (pathJoin ROOT_CORPUS_DIR "iwslt") (pairDirname src_lang tgt_lang)

/-- The tokenized-output directory of one IWSLT language pair. -/
def iwsltTokenDir (src_lang tgt_lang : String) : String :=
  pathJoin (pathJoin ROOT_TOK_DIR "iwslt") (pairDirname src_lang tgt_lang)

/-- The BPE-output directory of one IWSLT language pair. -/
def iwsltBpeDir (src_lang tgt_lang : String) : String :=
  pathJoin (pathJoin ROOT_BPE_DIR "iwslt") (pairDirname src_lang tgt_lang)

/-- The IWSLT split file-name pieces, in source order. -/
def iwsltPrefixes : List String := ["train", "IWSLT16.TED.tst2013", "IWSLT16.TED.tst2014"]

/-- The two file-name suffixes of one IWSLT language pair, in source
order. -/
def iwsltSuffixes (src_lang tgt_lang : String) : List String :=
  [pairDirname src_lang tgt_lang ++ src_lang,
   pairDirname src_lang tgt_lang ++ tgt_lang]

/-- Embedding of the download helper for one IWSLT language pair.  The
third-party download and clean routines are opaque: they are recorded as
invocations, their internal filesystem writes are outside the model. -/
def IWSLT_download_helper (fs : FS) (src_lang tgt_lang : String) : Effects :=
  let corpus_dir := iwsltCorpusDir src_lang tgt_lang
  if fs.existsPath corpus_dir then
    ⟨fs, [], ["iwslt " ++ pairDirname src_lang tgt_lang ++ " exists, skipping..."]⟩
  else
    ⟨fs,
     [["IWSLT.download", ROOT_CORPUS_DIR, corpus_dir], ["IWSLT.clean", corpus_dir]],
     ["downloading in " ++ corpus_dir ++ "..."]⟩

/-- Embedding of the per-file tokenize helper.  The external statistical
tokenizer is an abstract parameter tok.  Opening the output for writing
creates it before the input is read; a missing input then raises an io
error.  Each output line joins the lowered tokenized line plus a trailing
newline element with single spaces. -/
def tokenizeFile (tok : String → List String) (fs : FS) (in_file out_file : String) :
    Except PyError Effects :=
  let fs0 := fs.writeFile out_file []
  match fs0.readLines in_file with
  | none => .error (.ioError ("no such file " ++ in_file))
  | some lines =>
    .ok ⟨fs0.writeFile out_file
          (lines.map (fun l => String.intercalate " " (tok l.toLower ++ ["\n"]))),
        [], ["tokenizing " ++ basename in_file ++ "..."]⟩

/-- Sequencing of effectful steps: thread the filesystem, concatenate the
invocation and log records. -/
def Effects.andThen (acc : Effects) (step : FS → Except PyError Effects) :
    Except PyError Effects :=
  match step acc.fs with
  | .error e => .error e
  | .ok ef => .ok ⟨ef.fs, acc.calls ++ ef.calls, acc.logs ++ ef.logs⟩

/-- Embedding of the tokenize helper for one IWSLT language pair: skip when
the token directory exists, otherwise create it and tokenize the
prefix-by-suffix cross product of split files. -/
def tokenize_IWSLT_helper (tok : String → List String) (fs : FS)
    (src_lang tgt_lang : String) : Except PyError Effects :=
  let token_dir := iwsltTokenDir src_lang tgt_lang
  if fs.existsPath token_dir then
    .ok ⟨fs, [], [token_dir ++ " exists, skipping..."]⟩
  else
    let corpus_dir := iwsltCorpusDir src_lang tgt_lang
    (listProd iwsltPrefixes (iwsltSuffixes src_lang tgt_lang)).foldlM
      (fun acc ps => acc.andThen (fun f =>
        tokenizeFile tok f (pathJoin corpus_dir (ps.1 ++ "." ++ ps.2))
          (pathJoin token_dir (ps.1 ++ "." ++ ps.2))))
      ⟨fs.mkdir token_dir, [], []⟩

/-- The multi30k split file-name pieces, in source order. -/
def multi30kPrefixes : List String := ["train", "val", "test_2017_flickr"]

/-- The multi30k language codes, in source order. -/
def multi30kLangs : List String := [FR, EN, DE]

/-- Embedding of the multi30k download helper: skip when the corpus
directory exists, otherwise fetch and decompress each split-language pair
through the wget and gunzip utilities.  The files those external tools
create are outside the model. -/
def download_multi30k (fs : FS) : Effects :=
  let corpus_dir := pathJoin ROOT_CORPUS_DIR "multi30k"
  if fs.existsPath corpus_dir then
    ⟨fs, [], ["multi30k exists, skipping..."]⟩
  else
    (listProd multi30kPrefixes multi30kLangs).foldl
      (fun acc pl =>
        ⟨acc.fs,
         acc.calls ++
           [["wget",
             "https://github.com/multi30k/dataset/raw/master/data/task1/raw/" ++
               pl.1 ++ pl.2 ++ ".gz", "-P", corpus_dir],
            ["gunzip", "-k", pathJoin corpus_dir (pl.1 ++ pl.2 ++ ".gz")]],
         acc.logs⟩)
      ⟨fs, [], ["Downloading multi30k task1..."]⟩

/-- The argv of the joint BPE learning invocation.  The input files are the
three tokenized training corpora in dictionary insertion order: English,
German, French. -/
def learnBpeCmd : List String :=
  [PYTHONBIN, LEARN_JOINT_BPE] ++
  ["--input"] ++
    [pathJoin (pathJoin (pathJoin ROOT_TOK_DIR "iwslt") "en-de") "train.en-de.en",
     pathJoin (pathJoin (pathJoin ROOT_TOK_DIR "iwslt") "en-de") "train.en-de.de",
     pathJoin (pathJoin (pathJoin ROOT_TOK_DIR "iwslt") "fr-en") "train.fr-en.fr"] ++
  ["-s", "10000"] ++
  ["-o", codesPath] ++
  ["--write-vocabulary"] ++ [vocabPath EN, vocabPath DE, vocabPath FR]

/-- Embedding of learn_bpe: create the BPE root when absent, then either
invoke the external learning script once or log a skip when the codes file
already exists.  The codes and vocabulary files the external script writes
are outside the model. -/
def learn_bpe (fs : FS) : Effects :=
  let fs1 := if fs.existsPath ROOT_BPE_DIR then fs else fs.mkdir ROOT_BPE_DIR
  if fs1.existsPath codesPath then
    ⟨fs1, [], ["bpe.codes file exist, skipping..."]⟩
  else
    ⟨fs1, [learnBpeCmd], ["Learning BPE on joint language..."]⟩

/-- The argv of one BPE application invocation. -/
def applyBpeCmd (in_file out_file lang : String) : List String :=
  [PYTHONBIN, APPLY_BPE] ++
  ["-c", codesPath] ++
  ["--vocabulary", vocabPath lang] ++
  ["--vocabulary-threshold", toString MIN_FREQ] ++
  ["--input", in_file] ++
  ["--output", out_file]

/-- Embedding of apply_bpe: assert the codes file exists, then invoke the
external application script.  The output file the external script writes is
outside the model. -/
def apply_bpe (fs : FS) (in_file out_file lang : String) :
    Except PyError Effects :=
  if fs.existsPath codesPath then
    .ok ⟨fs, [applyBpeCmd in_file out_file lang],
         ["Applying BPE to " ++ basename out_file]⟩
  else .error (.assertionError (codesPath ++ " not exists!"))

/-- Embedding of apply_bpe_iwslt: skip when the BPE directory of the pair
exists, otherwise create it and apply BPE to the prefix-by-suffix cross
product, passing the last three characters of the suffix as language. -/
def apply_bpe_iwslt (fs : FS) (src_lang tgt_lang : String) :
    Except PyError Effects :=
  let bpe_dir := iwsltBpeDir src_lang tgt_lang
  if fs.existsPath bpe_dir then
    .ok ⟨fs, [],
         ["BPE IWSLT for " ++ pairDirname src_lang tgt_lang ++ " exists, skipping..."]⟩
  else
    let tok_dir := iwsltTokenDir src_lang tgt_lang
    (listProd iwsltPrefixes (iwsltSuffixes src_lang tgt_lang)).foldlM
      (fun acc ps => acc.andThen (fun f =>
        apply_bpe f (pathJoin tok_dir (ps.1 ++ "." ++ ps.2))
          (pathJoin bpe_dir (ps.1 ++ "." ++ ps.2)) (pyLast3 ps.2)))
      ⟨fs.mkdir bpe_dir, [], []⟩

/-- Embedding of apply_bpe_multi30k: skip when the multi30k BPE directory
exists, otherwise create it and apply BPE to every split-language file. -/
def apply_bpe_multi30k (fs : FS) : Except PyError Effects :=
  let bpe_dir := pathJoin ROOT_BPE_DIR "multi30k"
  if fs.existsPath bpe_dir then
    .ok ⟨fs, [], ["BPE Multi30k exists, skipping..."]⟩
  else
    let tok_dir := pathJoin ROOT_TOK_DIR "multi30k"
    (listProd multi30kPrefixes multi30kLangs).foldlM
      (fun acc pl => acc.andThen (fun f =>
        apply_bpe f (pathJoin tok_dir (pl.1 ++ pl.2))
          (pathJoin bpe_dir (pl.1 ++ pl.2)) pl.2))
      ⟨fs.mkdir bpe_dir, [], []⟩


/-! ## Helper lemmas -/

theorem get_txt_error_not_assert {fs : FS} {sl tl mode : String} {e : PyError}
    (h : IWSLTDataset.get_txt fs sl tl mode = .error e) :
    e.isAssertionErr = false := by
  cases hp : IWSLTDataset.prefixOf mode with
  | none =>
    simp [IWSLTDataset.get_txt, hp] at h
    subst h
    rfl
  | some pre =>
    cases hs : fs.readLines (IWSLTDataset.srcTxtPath sl tl pre) with
    | none =>
      simp [IWSLTDataset.get_txt, hp, hs] at h
      subst h
      rfl
    | some ls =>
      cases ht : fs.readLines (IWSLTDataset.tgtTxtPath sl tl pre) with
      | none =>
        simp [IWSLTDataset.get_txt, hp, hs, ht] at h
        subst h
        rfl
      | some lt =>
        simp [IWSLTDataset.get_txt, hp, hs, ht] at h

theorem get_txt_ok_iff (fs : FS) (sl tl mode pre : String)
    (h : IWSLTDataset.prefixOf mode = some pre) (s t : List String) :
    IWSLTDataset.get_txt fs sl tl mode = .ok (s, t) ↔
      fs.readLines (IWSLTDataset.srcTxtPath sl tl pre) = some s ∧
      fs.readLines (IWSLTDataset.tgtTxtPath sl tl pre) = some t := by
  cases hs : fs.readLines (IWSLTDataset.srcTxtPath sl tl pre) with
  | none => simp [IWSLTDataset.get_txt, h, hs]
  | some ls =>
    cases ht : fs.readLines (IWSLTDataset.tgtTxtPath sl tl pre) with
    | none => simp [IWSLTDataset.get_txt, h, hs, ht]
    | some lt => simp [IWSLTDataset.get_txt, h, hs, ht]

/-! ## Claim theorems -/

/-- C1: the claim states that when tgt_lengths is not supplied the call
Agent.forward(src, tgt, src_lengths) completes and returns the no-value
sentinel as mask, as the source docstring itself promises.  The source
instead calls a float method unconditionally on the mask, so when the mask
is the none value the call raises an attribute error.  This theorem
evaluates the embedding at a concrete failing input: a one-sentence batch,
no target lengths supplied. -/
theorem agent_forward_none_tgt_lengths_raises :
    Agent.forward trivialFns [[0]] [[0, 1]] none none false =
      .error (.attributeError "NoneType object has no attribute float") := rfl

/-- C2: with tgt_lengths supplied, Agent.forward feeds the target without
its final token to teacher forcing, returns the target without its leading
token as tgt_out, returns the log-softmax of the decoder logits as
logprobs, builds the mask as the float sequence mask over the decremented
target lengths with max_len the second logits dimension, and appends the
alignments as a fourth element exactly when with_align is set; tgt_out rows
are one shorter than the tgt rows. -/
theorem agent_forward_with_tgt_lengths {α μ σ : Type} (fns : AgentFns α μ σ)
    (src tgt : List (List Int)) (sl : Option (List Int)) (lens : List Int)
    (wa : Bool) (L : Nat) (hL : ∀ row ∈ tgt, row.length = L) :
    Agent.forward fns src tgt sl (some lens) wa =
      .ok (fns.logSoftmaxLast
             (fns.teacherForcing (tgt.map List.dropLast) (fns.encode src).2
               (fns.encode src).1 sl).1,
           tgt.map (List.drop 1),
           maskFloat (sequence_mask (lens.map (fun l => l - 1))
             (size1 (fns.teacherForcing (tgt.map List.dropLast) (fns.encode src).2
               (fns.encode src).1 sl).1)),
           if wa then
             some (fns.teacherForcing (tgt.map List.dropLast) (fns.encode src).2
               (fns.encode src).1 sl).2
           else none) ∧
    ∀ row ∈ tgt.map (List.drop 1), row.length = L - 1 := by
  constructor
  · rfl
  · intro row hrow
    simp only [List.mem_map] at hrow
    obtain ⟨r, hr, rfl⟩ := hrow
    simp [hL r hr]

/-- C2 witness: a concrete one-sentence batch of target length three with
the trivial neural primitives; tgt_out drops the leading token, the mask is
built over the decremented length, and the alignments are appended since
with_align is set. -/
theorem agent_forward_with_tgt_lengths_witness :
    Agent.forward trivialFns [[1]] [[3, 4, 5]] none (some [2]) true =
      .ok ([], [[4, 5]], [[]], some []) := by
  have h := (agent_forward_with_tgt_lengths trivialFns [[1]] [[3, 4, 5]] none [2]
    true 3 (by decide)).1
  rw [h]
  rfl

theorem vocab_error_not_assert {fs : FS} {lang : String} {e : PyError}
    (h : Vocab.ofFS fs lang = .error e) : e.isAssertionErr = false := by
  cases hr : fs.readLines (vocabPath lang) with
  | none =>
    simp [Vocab.ofFS, hr] at h
    subst h
    rfl
  | some ls => simp [Vocab.ofFS, hr] at h

theorem validMode_prefix {mode : String} (h : mode ∈ validModes) :
    ∃ pre, IWSLTDataset.prefixOf mode = some pre := by
  simp [validModes] at h
  rcases h with rfl | rfl | rfl <;> exact ⟨_, rfl⟩

/-- C3: constructing an IWSLTDataset fails with an assertion error exactly
when the mode is invalid or, the mode and every file read being fine, the
two split files have differing line counts; a missing vocabulary or text
file is a different error kind, not an assertion.  Every successful
construction stores the two file contents, and its length is their shared
line count. -/
theorem iwslt_dataset_init_spec (fs : FS) (sl tl mode : String) :
    (mode ∉ validModes → isAssertion (IWSLTDataset.init fs sl tl mode) = true) ∧
    (mode ∈ validModes →
      (isAssertion (IWSLTDataset.init fs sl tl mode) = true ↔
        exceptOk (Vocab.ofFS fs sl) = true ∧ exceptOk (Vocab.ofFS fs tl) = true ∧
        ∃ s t, IWSLTDataset.get_txt fs sl tl mode = .ok (s, t) ∧
          s.length ≠ t.length)) ∧
    (∀ d, IWSLTDataset.init fs sl tl mode = .ok d →
      ∃ pre, IWSLTDataset.prefixOf mode = some pre ∧
        fs.readLines (IWSLTDataset.srcTxtPath sl tl pre) = some d.src_text ∧
        fs.readLines (IWSLTDataset.tgtTxtPath sl tl pre) = some d.tgt_text ∧
        d.len = d.src_text.length ∧ d.src_text.length = d.tgt_text.length) := by
  by_cases hm : mode ∈ validModes
  · refine ⟨fun h => absurd hm h, fun _ => ?_, fun d hd => ?_⟩
    · cases hv1 : Vocab.ofFS fs sl with
      | error e1 =>
        simp [IWSLTDataset.init, hm, hv1, isAssertion,
          vocab_error_not_assert hv1, exceptOk]
      | ok sv =>
        cases hv2 : Vocab.ofFS fs tl with
        | error e2 =>
          simp [IWSLTDataset.init, hm, hv1, hv2, isAssertion,
            vocab_error_not_assert hv2, exceptOk]
        | ok tv =>
          cases hg : IWSLTDataset.get_txt fs sl tl mode with
          | error e =>
            simp [IWSLTDataset.init, hm, hv1, hv2, hg, isAssertion,
              get_txt_error_not_assert hg, exceptOk]
          | ok st =>
            obtain ⟨s, t⟩ := st
            by_cases hlen : s.length = t.length
            · simp [IWSLTDataset.init, hm, hv1, hv2, hg, hlen, isAssertion,
                exceptOk]
            · simp [IWSLTDataset.init, hm, hv1, hv2, hg, hlen, isAssertion,
                PyError.isAssertionErr, exceptOk]
              exact ⟨s, t, ⟨rfl, rfl⟩, hlen⟩
    · cases hv1 : Vocab.ofFS fs sl with
      | error e1 => simp [IWSLTDataset.init, hm, hv1] at hd
      | ok sv =>
        cases hv2 : Vocab.ofFS fs tl with
        | error e2 => simp [IWSLTDataset.init, hm, hv1, hv2] at hd
        | ok tv =>
          cases hg : IWSLTDataset.get_txt fs sl tl mode with
          | error e => simp [IWSLTDataset.init, hm, hv1, hv2, hg] at hd
          | ok st =>
            obtain ⟨s, t⟩ := st
            by_cases hlen : s.length = t.length
            · simp [IWSLTDataset.init, hm, hv1, hv2, hg, hlen] at hd
              obtain ⟨pre, hpre⟩ := validMode_prefix hm
              obtain ⟨hs, ht⟩ := (get_txt_ok_iff fs sl tl mode pre hpre s t).mp hg
              subst hd
              exact ⟨pre, hpre, hs, ht, rfl, hlen⟩
            · simp [IWSLTDataset.init, hm, hv1, hv2, hg, hlen] at hd
  · refine ⟨fun _ => ?_, fun h => absurd h hm, fun d hd => ?_⟩
    · simp [IWSLTDataset.init, hm, isAssertion, PyError.isAssertionErr]
    · simp [IWSLTDataset.init, hm] at hd

/-- C3 witness: an invalid mode asserts; matched vocabulary files with a
two-line source file against a one-line target file assert; a matched pair
constructs and reports the shared line count. -/
theorem iwslt_dataset_init_spec_witness :
    isAssertion (IWSLTDataset.init [] FR EN "bogus") = true ∧
    isAssertion (IWSLTDataset.init
      [(vocabPath FR, FSEntry.file ["a 1"]), (vocabPath EN, FSEntry.file ["b 1"]),
       (IWSLTDataset.srcTxtPath FR EN "train", FSEntry.file ["x\n", "z\n"]),
       (IWSLTDataset.tgtTxtPath FR EN "train", FSEntry.file ["y\n"])]
      FR EN "train") = true ∧
    (∃ pre, IWSLTDataset.prefixOf "train" = some pre ∧
      FS.readLines
        [(vocabPath FR, FSEntry.file ["a 1"]), (vocabPath EN, FSEntry.file ["b 1"]),
         (IWSLTDataset.srcTxtPath FR EN "train", FSEntry.file ["x\n"]),
         (IWSLTDataset.tgtTxtPath FR EN "train", FSEntry.file ["y\n"])]
        (IWSLTDataset.srcTxtPath FR EN pre) = some (IWSLTDataset.mk FR EN "train"
          ⟨FR, ["a"], 0⟩ ⟨EN, ["b"], 0⟩ (IWSLTDataset.bpeCorpusDir FR EN)
          ["x\n"] ["y\n"]).src_text ∧
      FS.readLines
        [(vocabPath FR, FSEntry.file ["a 1"]), (vocabPath EN, FSEntry.file ["b 1"]),
         (IWSLTDataset.srcTxtPath FR EN "train", FSEntry.file ["x\n"]),
         (IWSLTDataset.tgtTxtPath FR EN "train", FSEntry.file ["y\n"])]
        (IWSLTDataset.tgtTxtPath FR EN pre) = some (IWSLTDataset.mk FR EN "train"
          ⟨FR, ["a"], 0⟩ ⟨EN, ["b"], 0⟩ (IWSLTDataset.bpeCorpusDir FR EN)
          ["x\n"] ["y\n"]).tgt_text ∧
      (IWSLTDataset.mk FR EN "train" ⟨FR, ["a"], 0⟩ ⟨EN, ["b"], 0⟩
        (IWSLTDataset.bpeCorpusDir FR EN) ["x\n"] ["y\n"]).len =
        (IWSLTDataset.mk FR EN "train" ⟨FR, ["a"], 0⟩ ⟨EN, ["b"], 0⟩
          (IWSLTDataset.bpeCorpusDir FR EN) ["x\n"] ["y\n"]).src_text.length ∧
      (IWSLTDataset.mk FR EN "train" ⟨FR, ["a"], 0⟩ ⟨EN, ["b"], 0⟩
        (IWSLTDataset.bpeCorpusDir FR EN) ["x\n"] ["y\n"]).src_text.length =
      (IWSLTDataset.mk FR EN "train" ⟨FR, ["a"], 0⟩ ⟨EN, ["b"], 0⟩
        (IWSLTDataset.bpeCorpusDir FR EN) ["x\n"] ["y\n"]).tgt_text.length) := by
  refine ⟨(iwslt_dataset_init_spec [] FR EN "bogus").1 (by decide), ?_, ?_⟩
  · exact ((iwslt_dataset_init_spec _ FR EN "train").2.1 (by decide)).mpr
      ⟨by rfl, by rfl, ["x\n", "z\n"], ["y\n"], by rfl, by decide⟩
  · exact (iwslt_dataset_init_spec _ FR EN "train").2.2 _ (by rfl)

/-- C4: for every valid index, getitem returns an example whose src and tgt
are the stored lines at that index with trailing newlines stripped and
split on whitespace, and whose two length fields are the placeholder
integer zero. -/
theorem iwslt_getitem_spec (d : IWSLTDataset) (i : Nat)
    (h1 : i < d.src_text.length) (h2 : i < d.tgt_text.length) :
    d.getitem i = .ok
      ⟨.strList (pySplit (pyRstripNl (d.src_text.getD i ""))),
       .strList (pySplit (pyRstripNl (d.tgt_text.getD i ""))),
       .intVal 0, .intVal 0⟩ := by
  simp [IWSLTDataset.getitem, h1, h2]

/-- C4 witness: item zero of a two-line dataset. -/
theorem iwslt_getitem_spec_witness :
    (IWSLTDataset.mk FR EN "train" ⟨FR, ["a"], 0⟩ ⟨EN, ["b"], 0⟩
      (IWSLTDataset.bpeCorpusDir FR EN) ["a b\n", "c\n"] ["d\n", "e f\n"]).getitem 0 =
      .ok ⟨.strList ["a", "b"], .strList ["d"], .intVal 0, .intVal 0⟩ := by
  rw [iwslt_getitem_spec _ 0 (by decide) (by decide)]
  rfl

/-- C5: collate_fn pads the source sentences with the end-of-sequence word
as pad and end token and no init token, pads the target sentences with the
beginning-of-sequence word as init token and the end-of-sequence word as
end and pad token, numericalizes the padded source batch with src_vocab and
the padded target batch with tgt_vocab into long tensors, converts the two
length lists to int tensors, and returns all four as one IWSLTExample. -/
theorem collate_fn_spec (src_vocab tgt_vocab : Vocab) (batch : List IWSLTExample)
    (_hne : batch ≠ []) :
    IWSLTDataloader.collate_fn src_vocab tgt_vocab batch =
      ⟨.tensor2 ((src_vocab.numerize (pad_to_same_length
          (batch.map (fun e => e.src.tokens)) EOS_WORD none (some EOS_WORD)).1).map
          (fun row => row.map Int.ofNat)) "long" "cpu",
       .tensor2 ((tgt_vocab.numerize (pad_to_same_length
          (batch.map (fun e => e.tgt.tokens)) EOS_WORD (some BOS_WORD)
          (some EOS_WORD)).1).map (fun row => row.map Int.ofNat)) "long" "cpu",
       .tensor1 ((pad_to_same_length (batch.map (fun e => e.src.tokens))
          EOS_WORD none (some EOS_WORD)).2.map Int.ofNat) "int" "cpu",
       .tensor1 ((pad_to_same_length (batch.map (fun e => e.tgt.tokens))
          EOS_WORD (some BOS_WORD) (some EOS_WORD)).2.map Int.ofNat) "int" "cpu"⟩ :=
  rfl

/-- C5 witness: a concrete two-example batch over a three-token vocabulary;
the source rows get one end token and right padding, the target rows get a
leading begin token, and the length tensors hold the true wrapped
lengths. -/
theorem collate_fn_spec_witness :
    IWSLTDataloader.collate_fn ⟨EN, [BOS_WORD, EOS_WORD, "a", "b"], 0⟩
      ⟨FR, [BOS_WORD, EOS_WORD, "c"], 0⟩
      [⟨.strList ["a", "b"], .strList ["c"], .intVal 0, .intVal 0⟩,
       ⟨.strList ["b"], .strList ["c", "z"], .intVal 0, .intVal 0⟩] =
      ⟨.tensor2 [[2, 3, 1], [3, 1, 1]] "long" "cpu",
       .tensor2 [[0, 2, 1, 1], [0, 2, 0, 1]] "long" "cpu",
       .tensor1 [3, 2] "int" "cpu",
       .tensor1 [3, 4] "int" "cpu"⟩ := by
  rw [collate_fn_spec _ _ _ (by decide)]
  rfl

/-- C6: learn_bpe invokes the external BPE learning script at most once; when
the codes file is absent the single invocation names the interpreter, the
script, the three tokenized training corpora (English, German, French) as
joint input, merge count 10000, the codes file as output, and one
per-language vocabulary output path each for English, German and French;
when the codes file already exists nothing is invoked and only the skip
message is logged. -/
theorem learn_bpe_spec (fs : FS) :
    (learn_bpe fs).calls.length ≤ 1 ∧
    (fs.existsPath codesPath = true →
      (learn_bpe fs).calls = [] ∧
      (learn_bpe fs).logs = ["bpe.codes file exist, skipping..."]) ∧
    (fs.existsPath codesPath = false →
      (learn_bpe fs).calls =
        [[PYTHONBIN, LEARN_JOINT_BPE, "--input",
          pathJoin (pathJoin (pathJoin ROOT_TOK_DIR "iwslt") "en-de") "train.en-de.en",
          pathJoin (pathJoin (pathJoin ROOT_TOK_DIR "iwslt") "en-de") "train.en-de.de",
          pathJoin (pathJoin (pathJoin ROOT_TOK_DIR "iwslt") "fr-en") "train.fr-en.fr",
          "-s", "10000", "-o", codesPath, "--write-vocabulary",
          vocabPath EN, vocabPath DE, vocabPath FR]] ∧
      (learn_bpe fs).logs = ["Learning BPE on joint language..."]) := by
  have hkeep : ∀ (b : Bool),
      FS.existsPath (if b = true then fs else fs.mkdir ROOT_BPE_DIR) codesPath =
        fs.existsPath codesPath := by
    intro b
    cases b with
    | true => simp
    | false => rfl
  by_cases hc : fs.existsPath codesPath
  · refine ⟨?_, ?_, ?_⟩
    · simp [learn_bpe, hkeep, hc]
    · intro _
      constructor <;> simp [learn_bpe, hkeep, hc]
    · intro hf
      simp [hc] at hf
  · rw [Bool.not_eq_true] at hc
    refine ⟨?_, ?_, ?_⟩
    · simp [learn_bpe, hkeep, hc]
    · intro ht
      simp [hc] at ht
    · intro _
      constructor <;> simp [learn_bpe, hkeep, hc, learnBpeCmd]

/-- C6 witness: a filesystem holding the codes file skips; the empty
filesystem invokes the script once. -/
theorem learn_bpe_spec_witness :
    (learn_bpe [(codesPath, FSEntry.file [])]).calls = [] ∧
    (learn_bpe ([] : FS)).calls.length ≤ 1 :=
  ⟨((learn_bpe_spec [(codesPath, FSEntry.file [])]).2.1 (by rfl)).1,
   (learn_bpe_spec ([] : FS)).1⟩

/-- C7: apply_bpe fails with an assertion error and invokes nothing when the
codes file is absent; otherwise it invokes the external application script
exactly once with the codes file, the language-specific vocabulary file, the
minimum-frequency threshold, the given input file and the given output
file. -/
theorem apply_bpe_spec (fs : FS) (in_file out_file lang : String) :
    (fs.existsPath codesPath = false →
      apply_bpe fs in_file out_file lang =
        .error (.assertionError (codesPath ++ " not exists!"))) ∧
    (fs.existsPath codesPath = true →
      apply_bpe fs in_file out_file lang =
        .ok ⟨fs, [applyBpeCmd in_file out_file lang],
             ["Applying BPE to " ++ basename out_file]⟩) ∧
    applyBpeCmd in_file out_file lang =
      [PYTHONBIN, APPLY_BPE, "-c", codesPath, "--vocabulary", vocabPath lang,
       "--vocabulary-threshold", toString MIN_FREQ, "--input", in_file,
       "--output", out_file] := by
  refine ⟨?_, ?_, by simp [applyBpeCmd]⟩
  · intro hc
    simp [apply_bpe, hc]
  · intro hc
    simp [apply_bpe, hc]

/-- C7 witness: the empty filesystem asserts; a filesystem holding the codes
file invokes the script on the given files. -/
theorem apply_bpe_spec_witness :
    apply_bpe ([] : FS) "in.txt" "out.txt" EN =
      .error (.assertionError (codesPath ++ " not exists!")) ∧
    apply_bpe [(codesPath, FSEntry.file [])] "in.txt" "out.txt" EN =
      .ok ⟨[(codesPath, FSEntry.file [])], [applyBpeCmd "in.txt" "out.txt" EN],
           ["Applying BPE to " ++ basename "out.txt"]⟩ :=
  ⟨(apply_bpe_spec ([] : FS) "in.txt" "out.txt" EN).1 (by rfl),
   (apply_bpe_spec [(codesPath, FSEntry.file [])] "in.txt" "out.txt" EN).2.1 (by rfl)⟩

/-- C8: each staged preprocessing operation whose output directory already
exists returns at once with the filesystem untouched, no external
invocation, and only its skip message logged: the download helper on the
per-pair raw corpus directory, the tokenize helper on the per-pair token
directory, the multi30k download on its corpus directory, and the two BPE
appliers on their BPE directories. -/
theorem preprocess_skip_spec (fs : FS) (sl tl : String) :
    (fs.existsPath (iwsltCorpusDir sl tl) = true →
      IWSLT_download_helper fs sl tl =
        ⟨fs, [], ["iwslt " ++ pairDirname sl tl ++ " exists, skipping..."]⟩) ∧
    (fs.existsPath (iwsltTokenDir sl tl) = true →
      ∀ tok, tokenize_IWSLT_helper tok fs sl tl =
        .ok ⟨fs, [], [iwsltTokenDir sl tl ++ " exists, skipping..."]⟩) ∧
    (fs.existsPath (pathJoin ROOT_CORPUS_DIR "multi30k") = true →
      download_multi30k fs = ⟨fs, [], ["multi30k exists, skipping..."]⟩) ∧
    (fs.existsPath (iwsltBpeDir sl tl) = true →
      apply_bpe_iwslt fs sl tl =
        .ok ⟨fs, [],
             ["BPE IWSLT for " ++ pairDirname sl tl ++ " exists, skipping..."]⟩) ∧
    (fs.existsPath (pathJoin ROOT_BPE_DIR "multi30k") = true →
      apply_bpe_multi30k fs = .ok ⟨fs, [], ["BPE Multi30k exists, skipping..."]⟩) := by
  refine ⟨?_, ?_, ?_, ?_, ?_⟩
  · intro h
    simp [IWSLT_download_helper, h]
  · intro h tok
    simp [tokenize_IWSLT_helper, h]
  · intro h
    simp [download_multi30k, h]
  · intro h
    simp [apply_bpe_iwslt, h]
  · intro h
    simp [apply_bpe_multi30k, h]

/-- C8 witness: each of the five operations at a filesystem holding exactly
its output directory. -/
theorem preprocess_skip_spec_witness :
    IWSLT_download_helper [(iwsltCorpusDir FR EN, FSEntry.dir)] FR EN =
      ⟨[(iwsltCorpusDir FR EN, FSEntry.dir)], [],
       ["iwslt " ++ pairDirname FR EN ++ " exists, skipping..."]⟩ ∧
    tokenize_IWSLT_helper (fun _ => []) [(iwsltTokenDir FR EN, FSEntry.dir)] FR EN =
      .ok ⟨[(iwsltTokenDir FR EN, FSEntry.dir)], [],
           [iwsltTokenDir FR EN ++ " exists, skipping..."]⟩ ∧
    download_multi30k [(pathJoin ROOT_CORPUS_DIR "multi30k", FSEntry.dir)] =
      ⟨[(pathJoin ROOT_CORPUS_DIR "multi30k", FSEntry.dir)], [],
       ["multi30k exists, skipping..."]⟩ ∧
    apply_bpe_iwslt [(iwsltBpeDir FR EN, FSEntry.dir)] FR EN =
      .ok ⟨[(iwsltBpeDir FR EN, FSEntry.dir)], [],
           ["BPE IWSLT for " ++ pairDirname FR EN ++ " exists, skipping..."]⟩ ∧
    apply_bpe_multi30k [(pathJoin ROOT_BPE_DIR "multi30k", FSEntry.dir)] =
      .ok ⟨[(pathJoin ROOT_BPE_DIR "multi30k", FSEntry.dir)], [],
           ["BPE Multi30k exists, skipping..."]⟩ :=
  ⟨(preprocess_skip_spec [(iwsltCorpusDir FR EN, FSEntry.dir)] FR EN).1 (by rfl),
   (preprocess_skip_spec [(iwsltTokenDir FR EN, FSEntry.dir)] FR EN).2.1 (by rfl) _,
   (preprocess_skip_spec [(pathJoin ROOT_CORPUS_DIR "multi30k", FSEntry.dir)] FR EN).2.2.1 (by rfl),
   (preprocess_skip_spec [(iwsltBpeDir FR EN, FSEntry.dir)] FR EN).2.2.2.1 (by rfl),
   (preprocess_skip_spec [(pathJoin ROOT_BPE_DIR "multi30k", FSEntry.dir)] FR EN).2.2.2.2 (by rfl)⟩

/-- C9: the corpus directory is the BPE root, the corpus name iwslt and the
pair directory built from the two language codes with their marker dropped;
the split file-name pieces are train, IWSLT16.TED.tst2013 and
IWSLT16.TED.tst2014 for modes train, valid and test; both split files named
piece dot srcISO dash tgtISO langCode live in that directory, and get_txt
succeeds exactly by reading those two files. -/
theorem iwslt_paths_spec (sl tl : String) :
    IWSLTDataset.bpeCorpusDir sl tl =
      pathJoin (pathJoin ROOT_BPE_DIR "iwslt") (pyTail sl ++ "-" ++ pyTail tl) ∧
    IWSLTDataset.prefixOf "train" = some "train" ∧
    IWSLTDataset.prefixOf "valid" = some "IWSLT16.TED.tst2013" ∧
    IWSLTDataset.prefixOf "test" = some "IWSLT16.TED.tst2014" ∧
    (∀ pre, IWSLTDataset.srcTxtPath sl tl pre =
      pathJoin (IWSLTDataset.bpeCorpusDir sl tl)
        (pre ++ "." ++ pyTail sl ++ "-" ++ pyTail tl ++ sl)) ∧
    (∀ pre, IWSLTDataset.tgtTxtPath sl tl pre =
      pathJoin (IWSLTDataset.bpeCorpusDir sl tl)
        (pre ++ "." ++ pyTail sl ++ "-" ++ pyTail tl ++ tl)) ∧
    (∀ (fs : FS) (mode pre : String) (s t : List String),
      IWSLTDataset.prefixOf mode = some pre →
      (IWSLTDataset.get_txt fs sl tl mode = .ok (s, t) ↔
        fs.readLines (IWSLTDataset.srcTxtPath sl tl pre) = some s ∧
        fs.readLines (IWSLTDataset.tgtTxtPath sl tl pre) = some t)) :=
  ⟨rfl, rfl, rfl, rfl, fun _ => rfl, fun _ => rfl,
   fun fs mode pre s t h => get_txt_ok_iff fs sl tl mode pre h s t⟩

/-- C9 witness: the French-to-English pair in valid mode reads the two
tst2013 files. -/
theorem iwslt_paths_spec_witness :
    IWSLTDataset.get_txt
      [(IWSLTDataset.srcTxtPath FR EN "IWSLT16.TED.tst2013", FSEntry.file ["u\n"]),
       (IWSLTDataset.tgtTxtPath FR EN "IWSLT16.TED.tst2013", FSEntry.file ["v\n"])]
      FR EN "valid" = .ok (["u\n"], ["v\n"]) :=
  ((iwslt_paths_spec FR EN).2.2.2.2.2.2
    [(IWSLTDataset.srcTxtPath FR EN "IWSLT16.TED.tst2013", FSEntry.file ["u\n"]),
     (IWSLTDataset.tgtTxtPath FR EN "IWSLT16.TED.tst2013", FSEntry.file ["v\n"])]
    "valid" "IWSLT16.TED.tst2013" ["u\n"] ["v\n"] (by rfl)).mpr ⟨by rfl, by rfl⟩

/-- C10: the to method reassigns all four fields in place, in source order,
by calling the to method of each, and returns no value: on a collated
example, whose four fields are tensors, every field is retagged to the
requested device and no error arises; on a pre-batching example, whose
fields are token lists and the placeholder integer, the first field access
raises an attribute error and the example is left unchanged; a mixed
example shows the update can stop part way, leaving earlier fields moved. -/
theorem iwslt_example_to_spec :
    (∀ (d1 d2 : List (List Int)) (l1 l2 : List Int)
       (dt1 dt2 dt3 dt4 dv1 dv2 dv3 dv4 dev : String),
      IWSLTExample.toDev
        ⟨.tensor2 d1 dt1 dv1, .tensor2 d2 dt2 dv2,
         .tensor1 l1 dt3 dv3, .tensor1 l2 dt4 dv4⟩ dev =
        (⟨.tensor2 d1 dt1 dev, .tensor2 d2 dt2 dev,
          .tensor1 l1 dt3 dev, .tensor1 l2 dt4 dev⟩, none)) ∧
    (∀ (s t : List String) (dev : String),
      IWSLTExample.toDev ⟨.strList s, .strList t, .intVal 0, .intVal 0⟩ dev =
        (⟨.strList s, .strList t, .intVal 0, .intVal 0⟩,
         some (.attributeError "object has no attribute to"))) ∧
    IWSLTExample.toDev
      ⟨.tensor2 [[1]] "long" "cpu", .strList ["a"], .intVal 0, .intVal 0⟩ "cuda" =
      (⟨.tensor2 [[1]] "long" "cuda", .strList ["a"], .intVal 0, .intVal 0⟩,
       some (.attributeError "object has no attribute to")) :=
  ⟨fun _ _ _ _ _ _ _ _ _ _ _ _ _ => rfl, fun _ _ _ => rfl, rfl⟩
